import Mathlib

/-!
Shallow embedding of the eth-wallet browser application
(`src/components/WalletConnect.tsx` and `src/components/SendTransaction.tsx`).

JavaScript numbers produced by `parseFloat`, `parseInt` and arithmetic on
them are modelled exactly as signed decimal fixed-point values (an integer
numerator over a power of ten), with `NaN` and the two infinities as
explicit constructors.  Binary floating-point rounding is not modelled;
every value appearing in the verified claims is exactly representable in
decimal, where the JavaScript computation is exact as well.
-/

namespace EthWallet

/-- Exact model of a finite JavaScript number obtained from decimal
parsing and the arithmetic in this program: the value num / 10 ^ scale. -/
structure DecNum where
  num : Int
  scale : Nat
deriving DecidableEq, Repr

/-- Addition of two decimal values (exact; JavaScript addition of the
values in the claims is exact as well). -/
def decAdd (a b : DecNum) : DecNum :=
  let s := max a.scale b.scale
  ⟨a.num * 10 ^ (s - a.scale) + b.num * 10 ^ (s - b.scale), s⟩

/-- Multiplication of two decimal values. -/
def decMul (a b : DecNum) : DecNum :=
  ⟨a.num * b.num, a.scale + b.scale⟩

/-- Strict comparison of the represented values by cross multiplication. -/
def decLt (a b : DecNum) : Bool :=
  decide (a.num * 10 ^ b.scale < b.num * 10 ^ a.scale)

/-- JavaScript number: NaN, a signed infinity, or an exact finite value. -/
inductive JsNum where
  | nan : JsNum
  | inf (pos : Bool) : JsNum
  | fin (v : DecNum) : JsNum
deriving DecidableEq, Repr

/-- JavaScript unary minus. -/
def jsNeg : JsNum → JsNum
  | JsNum.nan => JsNum.nan
  | JsNum.inf p => JsNum.inf (!p)
  | JsNum.fin v => JsNum.fin ⟨-v.num, v.scale⟩

/-- JavaScript addition: NaN propagates, opposite infinities give NaN. -/
def jsAdd : JsNum → JsNum → JsNum
  | JsNum.nan, _ => JsNum.nan
  | _, JsNum.nan => JsNum.nan
  | JsNum.inf p, JsNum.inf q => if p = q then JsNum.inf p else JsNum.nan
  | JsNum.inf p, JsNum.fin _ => JsNum.inf p
  | JsNum.fin _, JsNum.inf q => JsNum.inf q
  | JsNum.fin a, JsNum.fin b => JsNum.fin (decAdd a b)

/-- JavaScript multiplication: NaN propagates, infinity times zero is NaN. -/
def jsMul : JsNum → JsNum → JsNum
  | JsNum.nan, _ => JsNum.nan
  | _, JsNum.nan => JsNum.nan
  | JsNum.inf p, JsNum.inf q => JsNum.inf (p = q)
  | JsNum.inf p, JsNum.fin v =>
      if v.num = 0 then JsNum.nan else JsNum.inf (p = decide (0 < v.num))
  | JsNum.fin v, JsNum.inf q =>
      if v.num = 0 then JsNum.nan else JsNum.inf (q = decide (0 < v.num))
  | JsNum.fin a, JsNum.fin b => JsNum.fin (decMul a b)

/-- Division of a JavaScript number by the constant 1e9 (the only division
in the program); exact because the divisor is a power of ten. -/
def jsDivByBillion : JsNum → JsNum
  | JsNum.nan => JsNum.nan
  | JsNum.inf p => JsNum.inf p
  | JsNum.fin v => JsNum.fin ⟨v.num, v.scale + 9⟩

/-- JavaScript strict greater-than: every comparison with NaN is false. -/
def jsGt : JsNum → JsNum → Bool
  | JsNum.nan, _ => false
  | _, JsNum.nan => false
  | JsNum.inf p, JsNum.inf q => p && !q
  | JsNum.inf p, JsNum.fin _ => p
  | JsNum.fin _, JsNum.inf q => !q
  | JsNum.fin a, JsNum.fin b => decLt b a

/-- Whitespace accepted by the JavaScript string-to-number conversions. -/
def jsWhitespace (c : Char) : Bool :=
  c == ' ' || c == '\t' || c == '\n' || c == '\r'

/-- Value of a list of decimal digit characters. -/
def digitsToNat (cs : List Char) : Nat :=
  cs.foldl (fun a c => 10 * a + (c.toNat - 48)) 0

/-- Hexadecimal digit test. -/
def isHexDigitChar (c : Char) : Bool :=
  c.isDigit || (97 ≤ c.toNat && c.toNat ≤ 102) || (65 ≤ c.toNat && c.toNat ≤ 70)

/-- Value of one hexadecimal digit character. -/
def hexCharVal (c : Char) : Nat :=
  if c.isDigit then c.toNat - 48
  else if 97 ≤ c.toNat && c.toNat ≤ 102 then c.toNat - 87
  else c.toNat - 55

/-- Value of a list of hexadecimal digit characters. -/
def hexToNat (cs : List Char) : Nat :=
  cs.foldl (fun a c => 16 * a + hexCharVal c) 0

/-- Decimal value mant * 10 ^ (exp - fracLen), as produced by a parsed
mantissa with fracLen digits after the point and exponent exp. -/
def decOfParts (mant fracLen : Nat) (exp : Int) : DecNum :=
  let e : Int := exp - (fracLen : Int)
  if 0 ≤ e then ⟨(mant : Int) * 10 ^ e.toNat, 0⟩ else ⟨(mant : Int), (-e).toNat⟩

/-- Exponent part of a JavaScript float literal, after the letter e:
optional sign then digits; contributes zero when no digit follows. -/
def parseExpAfterE (cs : List Char) : Int :=
  let p :=
    match cs with
    | '-' :: r => (true, r)
    | '+' :: r => (false, r)
    | _ => (false, cs)
  let ds := (p.2.span Char.isDigit).1
  if ds.isEmpty then 0
  else if p.1 then -(digitsToNat ds : Int) else (digitsToNat ds : Int)

/-- Exponent part of a JavaScript float literal starting at cs. -/
def parseExpPart (cs : List Char) : Int :=
  match cs with
  | 'e' :: r => parseExpAfterE r
  | 'E' :: r => parseExpAfterE r
  | _ => 0

/-- Unsigned part of JavaScript parseFloat: the literal Infinity, or the
longest prefix digits [. digits] [e exponent]; NaN when no digit occurs. -/
def parseFloatCore (cs : List Char) : JsNum :=
  match cs with
  | 'I' :: 'n' :: 'f' :: 'i' :: 'n' :: 'i' :: 't' :: 'y' :: _ => JsNum.inf true
  | _ =>
    let ipr := cs.span Char.isDigit
    let fpr :=
      match ipr.2 with
      | '.' :: rest => rest.span Char.isDigit
      | _ => ([], ipr.2)
    if ipr.1.isEmpty && fpr.1.isEmpty then JsNum.nan
    else
      JsNum.fin (decOfParts (digitsToNat (ipr.1 ++ fpr.1)) fpr.1.length
        (parseExpPart fpr.2))

/-- JavaScript parseFloat: skip whitespace, optional sign, then the
unsigned float or Infinity literal. -/
def parseFloat (s : String) : JsNum :=
  let cs := s.data.dropWhile jsWhitespace
  match cs with
  | '-' :: r => jsNeg (parseFloatCore r)
  | '+' :: r => parseFloatCore r
  | _ => parseFloatCore cs

/-- Unsigned part of JavaScript parseInt with automatic radix: a 0x
marker switches to hexadecimal; none models the NaN result. -/
def parseIntAutoCore (cs : List Char) : Option Nat :=
  match cs with
  | '0' :: 'x' :: r =>
      let ds := (r.span isHexDigitChar).1
      if ds.isEmpty then none else some (hexToNat ds)
  | '0' :: 'X' :: r =>
      let ds := (r.span isHexDigitChar).1
      if ds.isEmpty then none else some (hexToNat ds)
  | _ =>
      let ds := (cs.span Char.isDigit).1
      if ds.isEmpty then none else some (digitsToNat ds)

/-- JavaScript parseInt(s) with no radix argument, as a JsNum. -/
def parseIntJs (s : String) : JsNum :=
  let cs := s.data.dropWhile jsWhitespace
  match cs with
  | '-' :: r =>
      match parseIntAutoCore r with
      | none => JsNum.nan
      | some n => JsNum.fin ⟨-(n : Int), 0⟩
  | '+' :: r =>
      match parseIntAutoCore r with
      | none => JsNum.nan
      | some n => JsNum.fin ⟨(n : Int), 0⟩
  | _ =>
      match parseIntAutoCore cs with
      | none => JsNum.nan
      | some n => JsNum.fin ⟨(n : Int), 0⟩

/-- JavaScript parseInt(s, 16): skip whitespace, optional sign, optional
0x marker, then the longest run of hexadecimal digits; none models NaN. -/
def parseIntHexJs (s : String) : Option Int :=
  let cs := s.data.dropWhile jsWhitespace
  let p :=
    match cs with
    | '-' :: r => (true, r)
    | '+' :: r => (false, r)
    | _ => (false, cs)
  let body :=
    match p.2 with
    | '0' :: 'x' :: r => r
    | '0' :: 'X' :: r => r
    | _ => p.2
  let ds := (body.span isHexDigitChar).1
  if ds.isEmpty then none
  else if p.1 then some (-(hexToNat ds : Int)) else some ((hexToNat ds : Int))

/-- Rendering of parseInt(s, 16) inside a template string: NaN prints as
the three letters NaN, an integer prints in decimal. -/
def parseIntHexToString (s : String) : String :=
  match parseIntHexJs s with
  | none => "NaN"
  | some n => toString n

/-- JavaScript BigInt(string): optional sign, decimal or 0x-marked
hexadecimal digits with nothing else; the empty string is zero; none
models the thrown SyntaxError. -/
def parseBigInt (s : String) : Option Int :=
  let cs := (s.data.dropWhile jsWhitespace).reverse.dropWhile jsWhitespace
  let csv := cs.reverse
  match csv with
  | [] => some 0
  | _ =>
    let p :=
      match csv with
      | '-' :: r => (true, r)
      | '+' :: r => (false, r)
      | _ => (false, csv)
    match p.2 with
    | '0' :: 'x' :: r =>
        if !p.1 && !r.isEmpty && r.all isHexDigitChar then some ((hexToNat r : Int))
        else none
    | _ =>
        if !p.2.isEmpty && p.2.all Char.isDigit then
          some (if p.1 then -(digitsToNat p.2 : Int) else (digitsToNat p.2 : Int))
        else none

/-- Plain decimal digit string, with an optional fractional part, as
accepted by the toWei conversion of the client library: returns the
digits as one integer together with the number of fractional digits. -/
def parseDecDigits (cs : List Char) : Option (Nat × Nat) :=
  let ipr := cs.span Char.isDigit
  match ipr.2 with
  | [] => if ipr.1.isEmpty then none else some (digitsToNat ipr.1, 0)
  | '.' :: rest =>
      let fpr := rest.span Char.isDigit
      if fpr.2.isEmpty && !(ipr.1.isEmpty && fpr.1.isEmpty) then
        some (digitsToNat (ipr.1 ++ fpr.1), fpr.1.length)
      else none
  | _ => none

/-- Library toWei for a unit of the given number of decimals: exact
decimal scaling; none models the error thrown on a malformed number or
on more fractional digits than the unit allows. -/
def toWeiWith (decimals : Nat) (s : String) : Option Nat :=
  match parseDecDigits s.data with
  | none => none
  | some vf => if vf.2 ≤ decimals then some (vf.1 * 10 ^ (decimals - vf.2)) else none

/-- Library toWei(s, gwei): 9 decimals. -/
def toWeiGwei (s : String) : Option Nat := toWeiWith 9 s

/-- Library toWei(s, ether): 18 decimals. -/
def toWeiEther (s : String) : Option Nat := toWeiWith 18 s

/-- Left-pad a string with zero characters to the given length. -/
def padToLength (k : Nat) (s : String) : String :=
  String.mk (List.replicate (k - s.length) '0') ++ s

/-- Remove trailing zero characters. -/
def trimTrailingZeros (cs : List Char) : List Char :=
  (cs.reverse.dropWhile (fun c => c == '0')).reverse

/-- Library fromWei(n, ether): divide by 10^18 in exact decimal, printing
the fractional part without trailing zeros. -/
def fromWeiEther (n : Nat) : String :=
  let ip := n / 10 ^ 18
  let fr := n % 10 ^ 18
  if fr = 0 then toString ip
  else
    toString ip ++ "." ++
      String.mk (trimTrailingZeros (padToLength 18 (toString fr)).data)

/-- Library fromWei on a signed wei amount. -/
def fromWeiEtherInt (z : Int) : String :=
  if z < 0 then "-" ++ fromWeiEther z.natAbs else fromWeiEther z.toNat

/-- Remove factors of ten from a scaled representation: returns the
reduced scale and numerator.  Recursion is on the scale. -/
def decCanonAux : Nat → Int → Nat × Int
  | 0, n => (0, n)
  | s + 1, n => if n % 10 = 0 then decCanonAux s (n / 10) else (s + 1, n)

/-- Left-pad the decimal rendering of m with zeros to k digits. -/
def padDigits (k : Nat) (m : Nat) : String :=
  padToLength k (toString m)

/-- Decimal rendering of a finite value, used only on the degraded
floating-point fallback path of the fee computation; approximates the
JavaScript Number toString (no exponential notation). -/
def decToString (x : DecNum) : String :=
  let c := decCanonAux x.scale x.num
  if c.1 = 0 then toString c.2
  else
    (if c.2 < 0 then "-" else "") ++ toString (c.2.natAbs / 10 ^ c.1) ++ "." ++
      padDigits c.1 (c.2.natAbs % 10 ^ c.1)

/-- JavaScript Number toString for the values of this program. -/
def jsNumToString : JsNum → String
  | JsNum.nan => "NaN"
  | JsNum.inf p => if p then "Infinity" else "-Infinity"
  | JsNum.fin v => decToString v

/-- Rounded scaled rendering behind toFixed(6) for a nonnegative value
n / 10 ^ s: round half away from zero, print with six decimals. -/
def natScaledToFixed6 (n s : Nat) : String :=
  let scaled :=
    if s ≤ 6 then n * 10 ^ (6 - s) else (2 * n + 10 ^ (s - 6)) / (2 * 10 ^ (s - 6))
  toString (scaled / 1000000) ++ "." ++ padDigits 6 (scaled % 1000000)

/-- toFixed(6) of a finite value: the sign is peeled off first, as in the
ECMAScript algorithm. -/
def decToFixed6 (v : DecNum) : String :=
  if v.num < 0 then "-" ++ natScaledToFixed6 (-v.num).toNat v.scale
  else natScaledToFixed6 v.num.toNat v.scale

/-- JavaScript toFixed(6) on any number. -/
def jsToFixed6 : JsNum → String
  | JsNum.nan => "NaN"
  | JsNum.inf p => if p then "Infinity" else "-Infinity"
  | JsNum.fin v => decToFixed6 v

/-- Boolean test that the first list starts the second. -/
def listHasPre : List Char → List Char → Bool
  | [], _ => true
  | _ :: _, [] => false
  | a :: as, b :: bs => a == b && listHasPre as bs

/-- Boolean test that the needle occurs somewhere in the haystack. -/
def listHasSub (needle : List Char) : List Char → Bool
  | [] => needle.isEmpty
  | c :: rest => listHasPre needle (c :: rest) || listHasSub needle rest

/-- Substring containment on strings. -/
def strContains (hay needle : String) : Bool :=
  listHasSub needle.data hay.data

/-! ### SendTransaction component (src/components/SendTransaction.tsx) -/

/-- TransactionState of the SendTransaction component. -/
structure TransactionState where
  «to» : String
  amount : String
  gasPrice : String
  gasLimit : String
  isProcessing : Bool
  error : Option String
  success : Option String
deriving DecidableEq, Repr

/-- Mount-time TransactionState of the component (useState initializer). -/
def initialTransactionState : TransactionState :=
  { «to» := ""
    amount := ""
    gasPrice := ""
    gasLimit := "21000"
    isProcessing := false
    error := none
    success := none }

/-- Props and collaborators of the SendTransaction component: web3 records
whether the client handle is non-null, isAddress is the address validator
of the client library (exceptions folded into a false result, matching the
catch in isValidAddress). -/
structure SendEnv where
  web3 : Bool
  isAddress : String → Bool
  account : Option String
  balance : Option String
  networkSymbol : String

/-- JavaScript falsiness of an optional string prop: null or empty. -/
def optFalsy : Option String → Bool
  | none => true
  | some s => s == ""

/-- JavaScript expression o || d on an optional string. -/
def orElseStr (o : Option String) (d : String) : String :=
  match o with
  | none => d
  | some s => if s == "" then d else s

/-- isValidAddress: false when the web3 handle is null, otherwise the
client library's validator (false on an exception inside it). -/
def isValidAddress (env : SendEnv) (address : String) : Bool :=
  if env.web3 = false then false else env.isAddress address

/-- isValidAmount: parseFloat the string, then require not NaN and
strictly positive. -/
def isValidAmount (amount : String) : Bool :=
  match parseFloat amount with
  | JsNum.nan => false
  | JsNum.inf p => p
  | JsNum.fin v => decide (0 < v.num)

/-- Degraded floating-point fallback of calculateFee:
parseFloat(gasPrice) * parseInt(gasLimit) gwei, divided by 1e9.  The
inner catch of the source is unreachable because parseFloat and parseInt
never throw. -/
def fallbackFee (gasPrice gasLimit : String) : String :=
  jsNumToString (jsDivByBillion (jsMul (parseFloat gasPrice) (parseIntJs gasLimit)))

/-- calculateFee: zero when gasPrice or gasLimit is empty or web3 is
null; otherwise the exact path (toWei on the gwei gas price, BigInt
multiplication, fromWei to ether), falling back to floating point when
the exact path throws. -/
def calculateFee (web3 : Bool) (gasPrice gasLimit : String) : String :=
  if gasPrice = "" ∨ gasLimit = "" ∨ web3 = false then "0"
  else
    match toWeiGwei gasPrice, parseBigInt gasLimit with
    | some gp, some gl => fromWeiEtherInt ((gp : Int) * gl)
    | some _, none => fallbackFee gasPrice gasLimit
    | none, _ => fallbackFee gasPrice gasLimit

/-- Insufficient-balance error message built by sendTransaction. -/
def insufficientMsg (symbol : String) (total amount fee : JsNum) : String :=
  "Insufficient balance. You need " ++ jsToFixed6 total ++ " " ++ symbol ++
    " (" ++ jsToFixed6 amount ++ " + " ++ jsToFixed6 fee ++ " fee)"

/-- Message of the error thrown by the client library when a toWei
conversion inside the submission try-block fails; its exact text is
library-internal and immaterial here. -/
def toWeiFailureMessage : String :=
  "Invalid number value given to toWei"

/-- Result of the provider's transaction submission: a receipt carrying a
hash, or a rejection; a rejection carrying none models a thrown value
that is not an Error instance. -/
inductive TxOutcome where
  | success (hash : String) : TxOutcome
  | failure (message : Option String) : TxOutcome

/-- Error message recorded on the failure path: the message of the thrown
Error, or the fixed fallback text for a non-Error value. -/
def errorMessageOf (m : Option String) : String :=
  match m with
  | none => "Transaction failed"
  | some msg => msg

/-- Observable run of sendTransaction: whether the provider's submission
method was called, the component state while a submission is in flight
(none when none was started), and the final state. -/
structure SendTrace where
  submitted : Bool
  inFlight : Option TransactionState
  final : TransactionState
deriving DecidableEq, Repr

/-- sendTransaction, with the provider's response as an explicit input.
Follows the source exactly: the connected/address/amount precondition
checks, the insufficient-balance check on parseFloat values, then the
submission with isProcessing set during the await and cleared in both
the success and the failure branch. -/
def sendTransaction (env : SendEnv) (outcome : TxOutcome)
    (s : TransactionState) : SendTrace :=
  if env.web3 = false ∨ optFalsy env.account = true then
    ⟨false, none, { s with error := some "Wallet not connected" }⟩
  else if isValidAddress env s.«to» = false then
    ⟨false, none, { s with error := some "Invalid recipient address" }⟩
  else if isValidAmount s.amount = false then
    ⟨false, none, { s with error := some "Invalid amount" }⟩
  else
    let currentBalance := parseFloat (orElseStr env.balance "0")
    let amount := parseFloat s.amount
    let fee := parseFloat (calculateFee env.web3 s.gasPrice s.gasLimit)
    let totalCost := jsAdd amount fee
    if jsGt totalCost currentBalance = true then
      ⟨false, none,
        { s with error := some (insufficientMsg env.networkSymbol totalCost amount fee) }⟩
    else
      let mid : TransactionState :=
        { s with isProcessing := true, error := none, success := none }
      match toWeiEther s.amount, toWeiGwei s.gasPrice with
      | some _, some _ =>
        match outcome with
        | TxOutcome.success hash =>
            ⟨true, some mid,
              { mid with
                  isProcessing := false
                  success := some ("Transaction successful! Hash: " ++ hash)
                  «to» := ""
                  amount := "" }⟩
        | TxOutcome.failure m =>
            ⟨true, some mid,
              { mid with isProcessing := false, error := some (errorMessageOf m) }⟩
      | some _, none =>
          ⟨false, some mid,
            { mid with isProcessing := false, error := some toWeiFailureMessage }⟩
      | none, _ =>
          ⟨false, some mid,
            { mid with isProcessing := false, error := some toWeiFailureMessage }⟩

/-! ### WalletConnect component (src/components/WalletConnect.tsx) -/

/-- Entry of the static NETWORKS table. -/
structure NetworkInfo where
  name : String
  isTestnet : Bool
  symbol : String
deriving DecidableEq, Repr

/-- Static NETWORKS lookup table. -/
def NETWORKS (chainId : String) : Option NetworkInfo :=
  if chainId = "0x1" then some ⟨"Ethereum Mainnet", false, "ETH"⟩
  else if chainId = "0x5" then some ⟨"Goerli Testnet", true, "ETH"⟩
  else if chainId = "0xaa36a7" then some ⟨"Sepolia Testnet", true, "ETH"⟩
  else if chainId = "0x89" then some ⟨"Polygon Mainnet", false, "MATIC"⟩
  else if chainId = "0x13881" then some ⟨"Mumbai Testnet", true, "MATIC"⟩
  else if chainId = "0xa" then some ⟨"Optimism", false, "ETH"⟩
  else if chainId = "0xa4b1" then some ⟨"Arbitrum One", false, "ETH"⟩
  else none

/-- getNetworkInfo: table lookup with the synthesized fallback descriptor
naming the chain id decoded by parseInt(chainId, 16). -/
def getNetworkInfo (chainId : String) : NetworkInfo :=
  match NETWORKS chainId with
  | some info => info
  | none => ⟨"Chain ID: " ++ parseIntHexToString chainId, false, "ETH"⟩

/-- Network slice of the WalletState. -/
structure NetworkState where
  chainId : Option String
  name : Option String
  isTestnet : Bool
deriving DecidableEq, Repr

/-- WalletState of the WalletConnect component. -/
structure WalletState where
  isConnected : Bool
  account : Option String
  balance : Option String
  error : Option String
  network : NetworkState
  showSendForm : Bool
deriving DecidableEq, Repr

/-- Mount-time WalletState (useState initializer). -/
def initialWalletState : WalletState :=
  { isConnected := false
    account := none
    balance := none
    error := none
    network := { chainId := none, name := none, isTestnet := false }
    showSendForm := false }

/-- Component state: the WalletState together with the web3 handle
(modelled as a presence flag; it is null at mount). -/
structure AppState where
  wallet : WalletState
  web3 : Bool
deriving DecidableEq, Repr

/-- Mount-time component state. -/
def initialAppState : AppState :=
  { wallet := initialWalletState, web3 := false }

/-- Injected provider and the responses it gives during one connect run:
present is the window.ethereum existence check; requestAccountsResult is
the eth_requestAccounts response (none models a rejection, which throws);
chainIdResult is the eth_chainId response (none models a throw);
balanceResult maps an account to its wei balance (none models a throw). -/
structure ProviderEnv where
  present : Bool
  requestAccountsResult : Option (List String)
  chainIdResult : Option String
  balanceResult : String → Option Nat

/-- Result of getCurrentNetwork. -/
structure CurrentNetwork where
  chainId : Option String
  name : String
  isTestnet : Bool
  symbol : String
deriving DecidableEq, Repr

/-- getCurrentNetwork: the Unknown descriptor when the provider is absent
or the chain-id query throws, otherwise the chain id resolved through
getNetworkInfo. -/
def getCurrentNetwork (env : ProviderEnv) : CurrentNetwork :=
  if env.present = false then ⟨none, "Unknown", false, "ETH"⟩
  else
    match env.chainIdResult with
    | none => ⟨none, "Unknown", false, "ETH"⟩
    | some cid =>
        let ni := getNetworkInfo cid
        ⟨some cid, ni.name, ni.isTestnet, ni.symbol⟩

/-- connectWallet.  With no provider, only the error field changes.  On a
rejected authorization the catch sets only the error field (the web3
handle was not yet replaced).  With an account, the web3 handle is set,
the network is resolved, the balance is read and converted with fromWei,
and the whole WalletState is replaced.  A throw after the handle was set
(empty account list, so getBalance throws on an undefined account, or a
failing balance query) is caught and sets only the error field. -/
def connectWallet (env : ProviderEnv) (s : AppState) : AppState :=
  if env.present = true then
    match env.requestAccountsResult with
    | none =>
        { s with wallet := { s.wallet with error := some "Error connecting to wallet" } }
    | some accounts =>
      match accounts with
      | [] =>
          { wallet := { s.wallet with error := some "Error connecting to wallet" }
            web3 := true }
      | account :: _ =>
        match env.balanceResult account with
        | none =>
            { wallet := { s.wallet with error := some "Error connecting to wallet" }
              web3 := true }
        | some balWei =>
            let network := getCurrentNetwork env
            { wallet :=
                { isConnected := true
                  account := some account
                  balance := some (fromWeiEther balWei)
                  error := none
                  network :=
                    { chainId := network.chainId
                      name := some network.name
                      isTestnet := network.isTestnet }
                  showSendForm := false }
              web3 := true }
  else { s with wallet := { s.wallet with error := some "Please install MetaMask!" } }

/-- disconnectWallet: replaces the WalletState with the initial object
and nulls the web3 handle.  The second component lists the provider
methods invoked, which for this operation is none at all (the source
body is two state updates only). -/
def disconnectWallet (_s : AppState) : AppState × List String :=
  (initialAppState, [])

/-- Handler of the accountsChanged provider event: an empty account list
disconnects, a non-empty one re-runs connectWallet. -/
def handleAccountsChanged (env : ProviderEnv) (accounts : List String)
    (s : AppState) : AppState :=
  if accounts.length = 0 then (disconnectWallet s).1 else connectWallet env s

/-! ### Helper lemmas about substring containment -/

theorem listHasPre_self_append (xs ys : List Char) :
    listHasPre xs (xs ++ ys) = true := by
  induction xs with
  | nil => rfl
  | cons a as ih => simp [listHasPre, ih]

theorem listHasSub_nil (h : List Char) : listHasSub [] h = true := by
  cases h with
  | nil => rfl
  | cons c rest => simp [listHasSub, listHasPre]

theorem listHasSub_self_append (needle ys : List Char) :
    listHasSub needle (needle ++ ys) = true := by
  cases needle with
  | nil => exact listHasSub_nil ys
  | cons a as =>
      have h := listHasPre_self_append (a :: as) ys
      simp only [List.cons_append] at h
      simp [listHasSub, h]

theorem listHasSub_cons_of (needle : List Char) (c : Char) (h : List Char)
    (hh : listHasSub needle h = true) : listHasSub needle (c :: h) = true := by
  simp [listHasSub, hh]

theorem listHasSub_append_of (pre needle h : List Char)
    (hh : listHasSub needle h = true) : listHasSub needle (pre ++ h) = true := by
  induction pre with
  | nil => simpa using hh
  | cons c cs ih => simpa [List.cons_append] using listHasSub_cons_of needle c (cs ++ h) ih

theorem strContains_append (pre needle post : String) :
    strContains (pre ++ needle ++ post) needle = true := by
  unfold strContains
  have hd : (pre ++ needle ++ post).data = pre.data ++ (needle.data ++ post.data) := by
    simp [String.data_append]
  rw [hd]
  exact listHasSub_append_of _ _ _ (listHasSub_self_append _ _)

theorem strContains_append_end (pre needle : String) :
    strContains (pre ++ needle) needle = true := by
  unfold strContains
  have hd : (pre ++ needle).data = pre.data ++ needle.data := by
    simp [String.data_append]
  rw [hd]
  exact listHasSub_append_of _ _ _ (by simpa using listHasSub_self_append needle.data [])

theorem strAppendAssoc (a b c : String) : a ++ b ++ c = a ++ (b ++ c) := by
  apply String.ext
  simp [String.data_append]

theorem insufficientMsg_contains (symbol : String) (total amount fee : JsNum) :
    strContains (insufficientMsg symbol total amount fee) (jsToFixed6 amount) = true ∧
    strContains (insufficientMsg symbol total amount fee) (jsToFixed6 fee) = true := by
  constructor
  · have h : insufficientMsg symbol total amount fee =
        ("Insufficient balance. You need " ++ jsToFixed6 total ++ " " ++ symbol ++ " (") ++
          jsToFixed6 amount ++ (" + " ++ jsToFixed6 fee ++ " fee)") := by
      simp [insufficientMsg, strAppendAssoc]
    rw [h]
    exact strContains_append _ _ _
  · have h : insufficientMsg symbol total amount fee =
        ("Insufficient balance. You need " ++ jsToFixed6 total ++ " " ++ symbol ++ " (" ++
          jsToFixed6 amount ++ " + ") ++ jsToFixed6 fee ++ " fee)" := by
      simp [insufficientMsg, strAppendAssoc]
    rw [h]
    exact strContains_append _ _ _

/-! ### Claim theorems -/

/-- Claim C2: calculateFee with gasPriceGwei 20 and gasLimit 21000 returns
exactly the major-unit string 0.00042, computed by exact integer
multiplication of the wei gas price (20 gwei = 20000000000 wei) by the
gas limit (product 420000000000000 wei) followed by base-10^18
minor-to-major conversion. -/
theorem calculateFee_twenty_gwei :
    calculateFee true "20" "21000" = "0.00042" ∧
    toWeiGwei "20" = some 20000000000 ∧
    parseBigInt "21000" = some 21000 ∧
    fromWeiEtherInt (20000000000 * 21000) = "0.00042" := by
  decide

/-- Claim C4 counterexample: isValidAmount accepts the string Infinity,
whose parsed value is positive infinity and therefore not finite, so the
claim that validateAmount returns true only on finite values is false. -/
theorem isValidAmount_infinity :
    isValidAmount "Infinity" = true ∧ parseFloat "Infinity" = JsNum.inf true := by
  decide

/-- Claim C4 (amended): isValidAmount returns true iff parseFloat yields
a value that is not NaN and is strictly greater than zero, which accepts
positive Infinity (finiteness is not checked); on the strings 0 and -1 it
returns false. -/
theorem isValidAmount_characterization :
    (∀ s : String, isValidAmount s = true ↔
      (parseFloat s = JsNum.inf true ∨
        ∃ v : DecNum, parseFloat s = JsNum.fin v ∧ 0 < v.num)) ∧
    isValidAmount "0" = false ∧ isValidAmount "-1" = false := by
  refine ⟨?_, by decide, by decide⟩
  intro s
  unfold isValidAmount
  cases hp : parseFloat s with
  | nan => simp
  | inf p => cases p <;> simp
  | fin v => simp

/-- Claim C3: for a chain-id string outside the static NETWORKS table
whose hexadecimal decoding succeeds (yielding n), getNetworkInfo returns
the synthesized descriptor whose name contains the decimal rendering of
n, with isTestnet false and symbol ETH. -/
theorem getNetworkInfo_unknown_chain (chainId : String) (n : Int)
    (hun : NETWORKS chainId = none) (hp : parseIntHexJs chainId = some n) :
    (getNetworkInfo chainId).name = "Chain ID: " ++ toString n ∧
    (getNetworkInfo chainId).isTestnet = false ∧
    (getNetworkInfo chainId).symbol = "ETH" ∧
    strContains (getNetworkInfo chainId).name (toString n) = true := by
  have h : getNetworkInfo chainId = ⟨"Chain ID: " ++ toString n, false, "ETH"⟩ := by
    unfold getNetworkInfo parseIntHexToString
    rw [hun, hp]
  rw [h]
  exact ⟨rfl, rfl, rfl, strContains_append_end _ _⟩

/-- Claim C3 witness at the unknown chain id 0x2. -/
theorem getNetworkInfo_unknown_chain_witness :
    NETWORKS "0x2" = none ∧ parseIntHexJs "0x2" = some 2 ∧
    ((getNetworkInfo "0x2").name = "Chain ID: " ++ toString (2 : Int) ∧
      (getNetworkInfo "0x2").isTestnet = false ∧
      (getNetworkInfo "0x2").symbol = "ETH" ∧
      strContains (getNetworkInfo "0x2").name (toString (2 : Int)) = true) :=
  ⟨by decide, by decide, getNetworkInfo_unknown_chain "0x2" 2 (by decide) (by decide)⟩

/-- Claim C5: disconnectWallet resets the whole component state to its
mount-time value and invokes no provider method, so a connect after a
disconnect from any state equals a fresh connect from the initial state. -/
theorem disconnect_resets_and_commutes (s : AppState) :
    (disconnectWallet s).1 = initialAppState ∧
    (disconnectWallet s).2 = [] ∧
    ∀ env : ProviderEnv,
      connectWallet env (disconnectWallet s).1 = connectWallet env initialAppState :=
  ⟨rfl, rfl, fun _ => rfl⟩

/-- Claim C6: connectWallet with no injected provider (a total function,
so no exception escapes) sets a non-empty error string and leaves the
connected flag false and every other field of the state unchanged. -/
theorem connect_without_provider (env : ProviderEnv) (s : AppState)
    (hnp : env.present = false) (hc : s.wallet.isConnected = false) :
    ∃ e, (connectWallet env s).wallet.error = some e ∧ e ≠ "" ∧
      (connectWallet env s).wallet.isConnected = false ∧
      (connectWallet env s).wallet.account = s.wallet.account ∧
      (connectWallet env s).wallet.balance = s.wallet.balance ∧
      (connectWallet env s).wallet.network = s.wallet.network ∧
      (connectWallet env s).wallet.showSendForm = s.wallet.showSendForm ∧
      (connectWallet env s).web3 = s.web3 := by
  have h : connectWallet env s =
      { s with wallet := { s.wallet with error := some "Please install MetaMask!" } } := by
    unfold connectWallet
    rw [hnp]
    simp
  rw [h]
  exact ⟨"Please install MetaMask!", rfl, by decide, hc, rfl, rfl, rfl, rfl, rfl⟩

/-- Claim C6 witness: an absent provider and the initial state. -/
theorem connect_without_provider_witness :
    (⟨false, none, none, fun _ => none⟩ : ProviderEnv).present = false ∧
    initialAppState.wallet.isConnected = false ∧
    ∃ e, (connectWallet ⟨false, none, none, fun _ => none⟩ initialAppState).wallet.error =
          some e ∧ e ≠ "" ∧
      (connectWallet ⟨false, none, none, fun _ => none⟩ initialAppState).wallet.isConnected =
          false ∧
      (connectWallet ⟨false, none, none, fun _ => none⟩ initialAppState).wallet.account =
          initialAppState.wallet.account ∧
      (connectWallet ⟨false, none, none, fun _ => none⟩ initialAppState).wallet.balance =
          initialAppState.wallet.balance ∧
      (connectWallet ⟨false, none, none, fun _ => none⟩ initialAppState).wallet.network =
          initialAppState.wallet.network ∧
      (connectWallet ⟨false, none, none, fun _ => none⟩ initialAppState).wallet.showSendForm =
          initialAppState.wallet.showSendForm ∧
      (connectWallet ⟨false, none, none, fun _ => none⟩ initialAppState).web3 =
          initialAppState.web3 :=
  ⟨rfl, rfl, connect_without_provider _ _ rfl rfl⟩

/-- Claim C9: the accountsChanged handler on the empty account list,
from a connected state, yields exactly the initial disconnected state. -/
theorem accountsChanged_empty_disconnects (env : ProviderEnv) (s : AppState)
    (hc : s.wallet.isConnected = true) :
    handleAccountsChanged env [] s = initialAppState := rfl

/-- Claim C9 witness: a concrete connected state. -/
theorem accountsChanged_empty_disconnects_witness :
    ({ wallet := { initialWalletState with isConnected := true }, web3 := true } :
        AppState).wallet.isConnected = true ∧
    handleAccountsChanged ⟨true, some ["0xabc"], some "0x1", fun _ => some 0⟩ []
      { wallet := { initialWalletState with isConnected := true }, web3 := true } =
      initialAppState :=
  ⟨rfl, accountsChanged_empty_disconnects _ _ rfl⟩

/-- Claim C10: with a null web3 handle, isValidAddress rejects every
input string, and sendTransaction always stops at the connection check
with the wallet-not-connected error and never submits. -/
theorem null_web3_rejects_all (env : SendEnv) (hw : env.web3 = false) :
    (∀ addr : String, isValidAddress env addr = false) ∧
    ∀ (o : TxOutcome) (s : TransactionState),
      (sendTransaction env o s).submitted = false ∧
      (sendTransaction env o s).final.error = some "Wallet not connected" := by
  constructor
  · intro addr
    unfold isValidAddress
    rw [hw]
    simp
  · intro o s
    unfold sendTransaction
    rw [hw]
    simp

/-- Claim C10 witness: a null handle with an otherwise permissive
environment, on a well-formed state. -/
theorem null_web3_rejects_all_witness :
    (⟨false, fun _ => true, some "0xabc", some "10", "ETH"⟩ : SendEnv).web3 = false ∧
    isValidAddress ⟨false, fun _ => true, some "0xabc", some "10", "ETH"⟩
      "0x52908400098527886E0F7030069857D2E4169EE7" = false ∧
    (sendTransaction ⟨false, fun _ => true, some "0xabc", some "10", "ETH"⟩
      (TxOutcome.success "0xh") initialTransactionState).submitted = false :=
  ⟨rfl,
    (null_web3_rejects_all _ rfl).1 _,
    ((null_web3_rejects_all _ rfl).2 _ _).1⟩

/-- Claim C1: when the precondition checks up to the amount check pass
but the parseFloat sum of amount and fee strictly exceeds the current
balance, sendTransaction never calls the provider's submission method,
records an insufficient-funds error containing both the amount figure
and the fee figure (rendered by toFixed(6)), and leaves the processing
flag false. -/
theorem send_insufficient_never_submits
    (env : SendEnv) (o : TxOutcome) (s : TransactionState)
    (hw : env.web3 = true) (ha : optFalsy env.account = false)
    (haddr : isValidAddress env s.«to» = true)
    (hamt : isValidAmount s.amount = true)
    (hproc : s.isProcessing = false)
    (hover : jsGt (jsAdd (parseFloat s.amount)
        (parseFloat (calculateFee env.web3 s.gasPrice s.gasLimit)))
        (parseFloat (orElseStr env.balance "0")) = true) :
    (sendTransaction env o s).submitted = false ∧
    (sendTransaction env o s).final.isProcessing = false ∧
    ∃ e, (sendTransaction env o s).final.error = some e ∧
      strContains e (jsToFixed6 (parseFloat s.amount)) = true ∧
      strContains e (jsToFixed6 (parseFloat (calculateFee env.web3 s.gasPrice s.gasLimit))) =
        true := by
  rw [hw] at hover ⊢
  have h : sendTransaction env o s =
      ⟨false, none,
        { s with error := some (insufficientMsg env.networkSymbol
            (jsAdd (parseFloat s.amount)
              (parseFloat (calculateFee true s.gasPrice s.gasLimit)))
            (parseFloat s.amount)
            (parseFloat (calculateFee true s.gasPrice s.gasLimit))) }⟩ := by
    unfold sendTransaction
    rw [hw, ha, haddr, hamt]
    simp [hover]
  rw [h]
  refine ⟨rfl, hproc, _, rfl, ?_, ?_⟩
  · exact (insufficientMsg_contains _ _ _ _).1
  · exact (insufficientMsg_contains _ _ _ _).2

/-- Claim C1 witness: balance 1, amount 2, fee 0.00042. -/
theorem send_insufficient_never_submits_witness :
    (⟨true, fun _ => true, some "0xabc", some "1", "ETH"⟩ : SendEnv).web3 = true ∧
    optFalsy (⟨true, fun _ => true, some "0xabc", some "1", "ETH"⟩ : SendEnv).account = false ∧
    isValidAddress ⟨true, fun _ => true, some "0xabc", some "1", "ETH"⟩ "0xdef" = true ∧
    isValidAmount "2" = true ∧
    jsGt (jsAdd (parseFloat "2") (parseFloat (calculateFee true "20" "21000")))
      (parseFloat (orElseStr (some "1") "0")) = true ∧
    ((sendTransaction ⟨true, fun _ => true, some "0xabc", some "1", "ETH"⟩
        (TxOutcome.success "0xh")
        ⟨"0xdef", "2", "20", "21000", false, none, none⟩).submitted = false ∧
      (sendTransaction ⟨true, fun _ => true, some "0xabc", some "1", "ETH"⟩
        (TxOutcome.success "0xh")
        ⟨"0xdef", "2", "20", "21000", false, none, none⟩).final.isProcessing = false ∧
      ∃ e, (sendTransaction ⟨true, fun _ => true, some "0xabc", some "1", "ETH"⟩
          (TxOutcome.success "0xh")
          ⟨"0xdef", "2", "20", "21000", false, none, none⟩).final.error = some e ∧
        strContains e (jsToFixed6 (parseFloat "2")) = true ∧
        strContains e (jsToFixed6 (parseFloat (calculateFee
          (⟨true, fun _ => true, some "0xabc", some "1", "ETH"⟩ : SendEnv).web3
          "20" "21000"))) = true) :=
  ⟨rfl, rfl, rfl, by decide, by decide,
    send_insufficient_never_submits _ _ _ rfl rfl rfl (by decide) rfl (by decide)⟩

/-- Claim C7: when the submission succeeds, the final state carries a
success message containing the transaction hash, the recipient and the
amount are reset to empty, and the gasPrice and gasLimit fields are left
unchanged. -/
theorem send_success_resets_form
    (env : SendEnv) (s : TransactionState) (hash : String)
    (hw : env.web3 = true) (ha : optFalsy env.account = false)
    (haddr : isValidAddress env s.«to» = true)
    (hamt : isValidAmount s.amount = true)
    (hbal : jsGt (jsAdd (parseFloat s.amount)
        (parseFloat (calculateFee env.web3 s.gasPrice s.gasLimit)))
        (parseFloat (orElseStr env.balance "0")) = false)
    (wa wg : Nat)
    (hwa : toWeiEther s.amount = some wa)
    (hwg : toWeiGwei s.gasPrice = some wg) :
    (sendTransaction env (TxOutcome.success hash) s).final.success =
        some ("Transaction successful! Hash: " ++ hash) ∧
    strContains ("Transaction successful! Hash: " ++ hash) hash = true ∧
    (sendTransaction env (TxOutcome.success hash) s).final.«to» = "" ∧
    (sendTransaction env (TxOutcome.success hash) s).final.amount = "" ∧
    (sendTransaction env (TxOutcome.success hash) s).final.gasPrice = s.gasPrice ∧
    (sendTransaction env (TxOutcome.success hash) s).final.gasLimit = s.gasLimit := by
  rw [hw] at hbal
  have h : sendTransaction env (TxOutcome.success hash) s =
      ⟨true, some { s with isProcessing := true, error := none, success := none },
        { s with
            isProcessing := false
            success := some ("Transaction successful! Hash: " ++ hash)
            error := none
            «to» := ""
            amount := "" }⟩ := by
    unfold sendTransaction
    rw [hw, ha, haddr, hamt]
    simp [hbal, hwa, hwg]
  rw [h]
  exact ⟨rfl, strContains_append_end _ _, rfl, rfl, rfl, rfl⟩

/-- Claim C7 witness: balance 10, amount 2, hash 0xfeed. -/
theorem send_success_resets_form_witness :
    (⟨true, fun _ => true, some "0xabc", some "10", "ETH"⟩ : SendEnv).web3 = true ∧
    optFalsy (⟨true, fun _ => true, some "0xabc", some "10", "ETH"⟩ : SendEnv).account = false ∧
    isValidAddress ⟨true, fun _ => true, some "0xabc", some "10", "ETH"⟩ "0xdef" = true ∧
    isValidAmount "2" = true ∧
    jsGt (jsAdd (parseFloat "2") (parseFloat (calculateFee true "20" "21000")))
      (parseFloat (orElseStr (some "10") "0")) = false ∧
    toWeiEther "2" = some 2000000000000000000 ∧
    toWeiGwei "20" = some 20000000000 ∧
    ((sendTransaction ⟨true, fun _ => true, some "0xabc", some "10", "ETH"⟩
        (TxOutcome.success "0xfeed")
        ⟨"0xdef", "2", "20", "21000", false, none, none⟩).final.success =
      some ("Transaction successful! Hash: " ++ "0xfeed") ∧
      strContains ("Transaction successful! Hash: " ++ "0xfeed") "0xfeed" = true ∧
      (sendTransaction ⟨true, fun _ => true, some "0xabc", some "10", "ETH"⟩
        (TxOutcome.success "0xfeed")
        ⟨"0xdef", "2", "20", "21000", false, none, none⟩).final.«to» = "" ∧
      (sendTransaction ⟨true, fun _ => true, some "0xabc", some "10", "ETH"⟩
        (TxOutcome.success "0xfeed")
        ⟨"0xdef", "2", "20", "21000", false, none, none⟩).final.amount = "" ∧
      (sendTransaction ⟨true, fun _ => true, some "0xabc", some "10", "ETH"⟩
        (TxOutcome.success "0xfeed")
        ⟨"0xdef", "2", "20", "21000", false, none, none⟩).final.gasPrice =
        (⟨"0xdef", "2", "20", "21000", false, none, none⟩ : TransactionState).gasPrice ∧
      (sendTransaction ⟨true, fun _ => true, some "0xabc", some "10", "ETH"⟩
        (TxOutcome.success "0xfeed")
        ⟨"0xdef", "2", "20", "21000", false, none, none⟩).final.gasLimit =
        (⟨"0xdef", "2", "20", "21000", false, none, none⟩ : TransactionState).gasLimit) :=
  ⟨rfl, rfl, rfl, by decide, by decide, by decide, by decide,
    send_success_resets_form _ _ "0xfeed" rfl rfl rfl (by decide) (by decide)
      2000000000000000000 20000000000 (by decide) (by decide)⟩

/-- Claim C8: a run that passes every precondition and reaches the
submission has the processing flag true in the in-flight state and false
in the final state, for the success outcome as well as for the failure
outcome; on a failure carrying an Error message, that message is
recorded in the error field. -/
theorem send_processing_lifecycle
    (env : SendEnv) (o : TxOutcome) (s : TransactionState)
    (hw : env.web3 = true) (ha : optFalsy env.account = false)
    (haddr : isValidAddress env s.«to» = true)
    (hamt : isValidAmount s.amount = true)
    (hbal : jsGt (jsAdd (parseFloat s.amount)
        (parseFloat (calculateFee env.web3 s.gasPrice s.gasLimit)))
        (parseFloat (orElseStr env.balance "0")) = false)
    (wa wg : Nat)
    (hwa : toWeiEther s.amount = some wa)
    (hwg : toWeiGwei s.gasPrice = some wg) :
    (sendTransaction env o s).submitted = true ∧
    (∃ mid, (sendTransaction env o s).inFlight = some mid ∧ mid.isProcessing = true) ∧
    (sendTransaction env o s).final.isProcessing = false ∧
    ∀ m : String, o = TxOutcome.failure (some m) →
      (sendTransaction env o s).final.error = some m := by
  rw [hw] at hbal
  cases o with
  | success hash =>
      have h : sendTransaction env (TxOutcome.success hash) s =
          ⟨true, some { s with isProcessing := true, error := none, success := none },
            { s with
                isProcessing := false
                success := some ("Transaction successful! Hash: " ++ hash)
                error := none
                «to» := ""
                amount := "" }⟩ := by
        unfold sendTransaction
        rw [hw, ha, haddr, hamt]
        simp [hbal, hwa, hwg]
      rw [h]
      exact ⟨rfl, ⟨_, rfl, rfl⟩, rfl, fun m hm => by cases hm⟩
  | failure m =>
      have h : sendTransaction env (TxOutcome.failure m) s =
          ⟨true, some { s with isProcessing := true, error := none, success := none },
            { s with
                isProcessing := false
                error := some (errorMessageOf m)
                success := none }⟩ := by
        unfold sendTransaction
        rw [hw, ha, haddr, hamt]
        simp [hbal, hwa, hwg]
      rw [h]
      refine ⟨rfl, ⟨_, rfl, rfl⟩, rfl, fun msg hm => ?_⟩
      cases hm
      rfl

/-- Claim C8 witness: a failing submission whose Error message is
recorded verbatim. -/
theorem send_processing_lifecycle_witness :
    (⟨true, fun _ => true, some "0xabc", some "10", "ETH"⟩ : SendEnv).web3 = true ∧
    optFalsy (⟨true, fun _ => true, some "0xabc", some "10", "ETH"⟩ : SendEnv).account = false ∧
    isValidAddress ⟨true, fun _ => true, some "0xabc", some "10", "ETH"⟩ "0xdef" = true ∧
    isValidAmount "2" = true ∧
    jsGt (jsAdd (parseFloat "2") (parseFloat (calculateFee true "20" "21000")))
      (parseFloat (orElseStr (some "10") "0")) = false ∧
    toWeiEther "2" = some 2000000000000000000 ∧
    toWeiGwei "20" = some 20000000000 ∧
    ((sendTransaction ⟨true, fun _ => true, some "0xabc", some "10", "ETH"⟩
        (TxOutcome.failure (some "User denied transaction signature"))
        ⟨"0xdef", "2", "20", "21000", false, none, none⟩).submitted = true ∧
      (∃ mid, (sendTransaction ⟨true, fun _ => true, some "0xabc", some "10", "ETH"⟩
          (TxOutcome.failure (some "User denied transaction signature"))
          ⟨"0xdef", "2", "20", "21000", false, none, none⟩).inFlight = some mid ∧
        mid.isProcessing = true) ∧
      (sendTransaction ⟨true, fun _ => true, some "0xabc", some "10", "ETH"⟩
        (TxOutcome.failure (some "User denied transaction signature"))
        ⟨"0xdef", "2", "20", "21000", false, none, none⟩).final.isProcessing = false ∧
      ∀ m : String,
        TxOutcome.failure (some "User denied transaction signature") =
          TxOutcome.failure (some m) →
        (sendTransaction ⟨true, fun _ => true, some "0xabc", some "10", "ETH"⟩
          (TxOutcome.failure (some "User denied transaction signature"))
          ⟨"0xdef", "2", "20", "21000", false, none, none⟩).final.error = some m) :=
  ⟨rfl, rfl, rfl, by decide, by decide, by decide, by decide,
    send_processing_lifecycle _ _ _ rfl rfl rfl (by decide) (by decide)
      2000000000000000000 20000000000 (by decide) (by decide)⟩

end EthWallet
